import Mathlib

/-!
Shallow embedding of `src/s5p_utils.py` (the `air-pollution` repository):
a pipeline that georeferences Sentinel-5P NetCDF variables into GTiff
rasters, applies a quality mask, derives output filenames and merges
rasters.  Machine `Float32` cell values are modelled by an inductive type
`F32` with an explicit NaN, rasters by a record carrying the pixel array
together with its georeferencing, and the GDAL parameter dictionaries by
explicit assignment lists (so that "the same key is assigned twice" is
observable, as it is in the Python dict-building code).
-/

namespace S5P

/-- A Float32 cell value: either the IEEE not-a-number sentinel or a
(rational-modelled) numeric value.  The only float operations the script
performs on cell values are order comparisons against a threshold, for
which this model is exact. -/
inductive F32 where
  | nan : F32
  | num : ℚ → F32
deriving DecidableEq, Repr

/-- IEEE `x <= t` for a Float32 cell against a numeric threshold:
false whenever `x` is NaN (this is the numpy semantics of
`mask <= mask_threshold` on a NaN entry). -/
def F32.le (x : F32) (t : ℚ) : Bool :=
  match x with
  | .nan => false
  | .num q => q ≤ t

/-- IEEE `x > t` for a Float32 cell against a numeric threshold:
false whenever `x` is NaN. -/
def F32.gt (x : F32) (t : ℚ) : Bool :=
  match x with
  | .nan => false
  | .num q => t < q

/-- An in-memory GDAL raster dataset: pixel dimensions, the six-coefficient
geotransform, the projection reference string, and the flattened pixel
array (`ReadAsArray`). -/
structure Raster where
  rasterXSize : Nat
  rasterYSize : Nat
  geoTransform : List ℚ
  projectionRef : String
  data : List F32
deriving DecidableEq, Repr

/-- The elementwise masking step `data[mask <= mask_threshold] = np.nan`
of `write_masked_data` (src/s5p_utils.py line 110): every cell whose
paired mask cell compares `<=` the threshold becomes NaN, every other
cell is kept. -/
def applyMask (data mask : List F32) (t : ℚ) : List F32 :=
  (data.zip mask).map (fun p => if F32.le p.2 t then F32.nan else p.1)

/-- `write_masked_data` (src/s5p_utils.py lines 102-123) as a function on
rasters: read the data and mask arrays, blank out low-quality cells, and
build the output dataset with the data raster's size, geotransform and
projection reference copied over verbatim.  Default threshold 75 as in
the source. -/
def write_masked_data (data_ds mask_ds : Raster) (mask_threshold : ℚ := 75) :
    Raster :=
  { rasterXSize := data_ds.rasterXSize
    rasterYSize := data_ds.rasterYSize
    geoTransform := data_ds.geoTransform
    projectionRef := data_ds.projectionRef
    data := applyMask data_ds.data mask_ds.data mask_threshold }

/-- Python string slicing `s[a:b]` for `0 ≤ a ≤ b`: the characters at
indices `a, ..., b-1`, truncated (never an error) when the string is
shorter. -/
def pySlice (s : String) (a b : Nat) : String :=
  String.mk ((s.toList.drop a).take (b - a))

/-- Python `s.replace('_', '')`: remove every underscore. -/
def removeUnderscores (s : String) : String :=
  String.mk (s.toList.filter (fun c => c ≠ '_'))

/-- `os.path.sep` on the POSIX platform the script targets. -/
def osPathSep : String := "/"

/-- Split a character list on a separator character, Python
`str.split(sep)` style: adjacent separators yield empty fields and the
empty input yields one empty field. -/
def splitChars (sep : Char) : List Char → List (List Char)
  | [] => [[]]
  | c :: cs =>
    if c = sep then [] :: splitChars sep cs
    else
      match splitChars sep cs with
      | [] => [[c]]
      | field :: rest => (c :: field) :: rest

/-- Python `s.split(sep)` for a one-character separator. -/
def pySplit (s : String) (sep : Char) : List String :=
  (splitChars sep s.toList).map String.mk

/-- `generate_out_filepath` (src/s5p_utils.py lines 160-171): take the
last path component of `in_filepath`, extract the short variable name as
characters 13-20 with underscores removed and the timestamp as characters
20-35, and join them under `output_folder` with the given extension. -/
def generate_out_filepath (in_filepath output_folder ext : String) : String :=
  let filename := (pySplit in_filepath '/').getLastD ""
  let var_name_short := removeUnderscores (pySlice filename 13 20)
  let timestamp := pySlice filename 20 35
  output_folder ++ osPathSep ++ var_name_short ++ "_" ++ timestamp ++ ext

/-- One assignment into the `params` dictionary that `georef_data` builds
for `gdal.Warp`.  Modelling the dict as its assignment sequence keeps
repeated assignments to the same key (the `params['xRes'] = ...` lines)
observable. -/
inductive WarpAssign where
  | dstNodata : ℤ → WarpAssign
  | dstSRS : String → WarpAssign
  | format : String → WarpAssign
  | xRes : ℚ → WarpAssign
  | yRes : ℚ → WarpAssign
deriving DecidableEq, Repr

/-- `georef_data` (src/s5p_utils.py lines 126-156): the sequence of
`params` assignments it performs, in source order, together with the
output filepath it passes to `gdal.Warp`.  `0.06288` is modelled exactly
as the rational 6288/100000. -/
def georef_data (out_filepath : String) (vrt : Bool) (EPSG_code : String)
    (spatial_res : List ℚ) : String × List WarpAssign :=
  let base := [WarpAssign.dstNodata (-9999), WarpAssign.dstSRS ("EPSG:" ++ EPSG_code)]
  let fmt := if vrt then [WarpAssign.format "VRT"] else [WarpAssign.format "Gtiff"]
  let path := if vrt then out_filepath.replace ".tif" ".vrt"
              else out_filepath.replace ".vrt" ".tif"
  let res :=
    if spatial_res.isEmpty then
      if EPSG_code = "4326" then
        [WarpAssign.xRes (6288 / 100000), WarpAssign.yRes (6288 / 100000)]
      else
        [WarpAssign.xRes 7000, WarpAssign.xRes 7000]
    else
      [WarpAssign.xRes (spatial_res.getD 0 0), WarpAssign.xRes (spatial_res.getD 1 0)]
  (path, base ++ fmt ++ res)

/-- The resolution assignments (`xRes`/`yRes` keys only) performed by
`georef_data`, in order. -/
def resAssigns (EPSG_code : String) (spatial_res : List ℚ) : List WarpAssign :=
  (georef_data "out.tif" false EPSG_code spatial_res).2.filter
    (fun a => match a with
      | .xRes _ => true
      | .yRes _ => true
      | _ => false)

/-- Does an assignment list contain an assignment to the `yRes` key? -/
def hasYRes (l : List WarpAssign) : Bool :=
  l.any (fun a => match a with | .yRes _ => true | _ => false)

/-- Number of assignments to the `xRes` key in an assignment list. -/
def countXRes (l : List WarpAssign) : Nat :=
  (l.filter (fun a => match a with | .xRes _ => true | _ => false)).length

/-- The GEOLOCATION metadata block of the VRT descriptor template in
`write_var_to_tif` (src/s5p_utils.py lines 76-85). -/
structure GeolocationMD where
  xDataset : String
  xBand : Nat
  yDataset : String
  yBand : Nat
  pixelOffset : Nat
  lineOffset : Nat
  pixelStep : Nat
  lineStep : Nat
deriving DecidableEq, Repr

/-- One `VRTRasterBand` element of the descriptor template
(src/s5p_utils.py lines 86-94). -/
structure VRTBand where
  band : Nat
  datatype : String
  sourceFilename : String
  sourceBand : Nat
  srcRect : Nat × Nat × Nat × Nat
  dstRect : Nat × Nat × Nat × Nat
deriving DecidableEq, Repr

/-- The whole instantiated VRT descriptor of `write_var_to_tif`
(src/s5p_utils.py lines 74-96): raster size, geolocation binding, and the
band list (the template contains exactly one `VRTRasterBand` element). -/
structure VRTDataset where
  rasterXSize : Nat
  rasterYSize : Nat
  geolocation : GeolocationMD
  bands : List VRTBand
deriving DecidableEq, Repr

/-- The VRT descriptor that `write_var_to_tif` writes, with every template
hole filled from its arguments exactly as in the f-string of
src/s5p_utils.py lines 74-96. -/
def write_var_to_tif_vrt (in_filepath varName lon_file lat_file : String)
    (rasterXSize rasterYSize : Nat) : VRTDataset :=
  { rasterXSize := rasterXSize
    rasterYSize := rasterYSize
    geolocation :=
      { xDataset := lon_file
        xBand := 1
        yDataset := lat_file
        yBand := 1
        pixelOffset := 0
        lineOffset := 0
        pixelStep := 1
        lineStep := 1 }
    bands :=
      [{ band := 1
         datatype := "Float32"
         sourceFilename := "HDF5:" ++ in_filepath ++ "://PRODUCT/" ++ varName
         sourceBand := 1
         srcRect := (0, 0, rasterXSize, rasterYSize)
         dstRect := (0, 0, rasterXSize, rasterYSize) }] }

/-- Python `' '.join(parts)`. -/
def pyJoinSpace : List String → String
  | [] => ""
  | [x] => x
  | x :: y :: rest => x ++ " " ++ pyJoinSpace (y :: rest)

/-- A subprocess invocation: the command string and whether it runs
through the shell. -/
structure SubprocessCall where
  cmd : String
  shell : Bool
deriving DecidableEq, Repr

/-- `merge_rasters` (src/s5p_utils.py lines 174-184): the
`gdal_merge.py` command line it assembles (`-init 255`, `-o <output>`,
`-n 9999`, then every input path wrapped in double quotes) and its
invocation via `subprocess.check_output(..., shell=True)`. -/
def merge_rasters (in_filenames : List String) (output_filename : String) :
    SubprocessCall :=
  let cmd_gdal_merge :=
    pyJoinSpace
      (["gdal_merge.py", "-init 255 -o", output_filename, "-n 9999"] ++
        in_filenames.map (fun f => "\"" ++ f ++ "\""))
  { cmd := cmd_gdal_merge, shell := true }

/-- A flat filesystem: newest write first; `fsRead` returns the newest
raster written to a path. -/
abbrev FS := List (String × Raster)

/-- Writing a raster to a path (GTiff `driver.Create` + `FlushCache`). -/
def fsWrite (path : String) (r : Raster) (fs : FS) : FS := (path, r) :: fs

/-- Reading back the newest raster at a path. -/
def fsRead (path : String) (fs : FS) : Option Raster :=
  (fs.find? (fun e => e.1 == path)).map (fun e => e.2)

/-- Concatenate strings, each preceded by one space (the tail shape of a
Python `' '.join`). -/
def spaceConcat : List String → String
  | [] => ""
  | s :: rest => " " ++ s ++ spaceConcat rest

/-- The masked-output writes performed by `write_s5p_tif`
(src/s5p_utils.py lines 43-53), as (path, raster) pairs in loop order:
`output_file` is computed once before the loop from `in_filepath` and
`output_folder` only, and every iteration's `write_masked_data` call
targets it.  `readVar` gives the georeferenced raster obtained for each
variable and `qa` the georeferenced quality raster. -/
def s5pWriteTrace (in_filepath : String) (vars : List String)
    (output_folder : String) (readVar : String → Raster) (qa : Raster) :
    List (String × Raster) :=
  let output_file := generate_out_filepath in_filepath output_folder ".tif"
  vars.map (fun varName =>
    (output_file, write_masked_data (readVar varName) qa 75))

/-- The loop of `write_s5p_tif` as a filesystem transformer: each
iteration writes the masked raster for one variable to the single
precomputed `output_file` path. -/
def write_s5p_tif (in_filepath : String) (vars : List String)
    (output_folder : String) (readVar : String → Raster) (qa : Raster)
    (fs : FS) : FS :=
  let output_file := generate_out_filepath in_filepath output_folder ".tif"
  vars.foldl
    (fun acc varName =>
      fsWrite output_file (write_masked_data (readVar varName) qa 75) acc)
    fs

end S5P

namespace S5P

example :
    generate_out_filepath "/d/S5P_OFFL_L2__NO2____20210101T120000_20210101T134130_16680_01_010400_20210103T055107.nc" "/out" ".tif"
      = "/out/NO2_20210101T120000.tif" := by decide

example : applyMask [F32.num 3, F32.num 4, F32.nan] [F32.num 50, F32.num 80, F32.nan] 75
    = [F32.nan, F32.num 4, F32.nan] := by decide

end S5P

namespace S5P

/-! ## Helper lemmas -/

/-- Reading one cell of the masked array: inside the common shape, the
output cell is NaN exactly when the paired mask cell compares `<=` the
threshold, and the original data cell otherwise. -/
theorem applyMask_getD (d m : List F32) (t : ℚ) (i : Nat)
    (hd : i < d.length) (hm : i < m.length) :
    (applyMask d m t).getD i F32.nan =
      if F32.le (m.getD i F32.nan) t then F32.nan else d.getD i F32.nan := by
  induction d generalizing m i with
  | nil => simp at hd
  | cons x xs ih =>
    cases m with
    | nil => simp at hm
    | cons y ys =>
      cases i with
      | zero => simp [applyMask]
      | succ j =>
        have hd' : j < xs.length := Nat.lt_of_succ_lt_succ hd
        have hm' : j < ys.length := Nat.lt_of_succ_lt_succ hm
        simpa [applyMask] using ih ys j hd' hm'

/-- Masking an already-masked array with the same mask and threshold
changes nothing. -/
theorem applyMask_idem (d m : List F32) (t : ℚ) :
    applyMask (applyMask d m t) m t = applyMask d m t := by
  induction d generalizing m with
  | nil => cases m <;> simp [applyMask]
  | cons x xs ih =>
    cases m with
    | nil => simp [applyMask]
    | cons y ys =>
      by_cases h : F32.le y t <;>
        simpa [applyMask, h] using ih ys

/-- Folding writes of `g v` to one fixed path `p` over a nonempty list
leaves the write for the last list element as the raster read back at
`p`. -/
theorem fsRead_foldl_fsWrite (p : String) (g : String → Raster) :
    ∀ (l : List String) (fs : FS), l ≠ [] →
      fsRead p (l.foldl (fun acc v => fsWrite p (g v) acc) fs) =
        some (g (l.getLastD "")) := by
  intro l
  induction l with
  | nil => intro fs h; exact absurd rfl h
  | cons x xs ih =>
    intro fs _
    cases xs with
    | nil => simp [fsRead, fsWrite]
    | cons y ys =>
      have := ih (fsWrite p (g x) fs) (by simp)
      simpa [List.foldl_cons, List.getLastD_cons] using this

/-- A Python slice `s[a:b]` has at most `b - a` characters. -/
theorem pySlice_length_le (s : String) (a b : Nat) :
    (pySlice s a b).length ≤ b - a := by
  show ((s.toList.drop a).take (b - a)).length ≤ b - a
  rw [List.length_take]
  exact Nat.min_le_left _ _

/-- Removing underscores never lengthens a string. -/
theorem removeUnderscores_length_le (s : String) :
    (removeUnderscores s).length ≤ s.length := by
  show (s.toList.filter (fun c => c ≠ '_')).length ≤ s.length
  exact List.length_filter_le _ _

end S5P

namespace S5P

/-! ## Claim theorems -/

/-- Claim C1: for equally-shaped data and quality arrays and any
threshold `t` (75 being the source default), `write_masked_data` puts
NaN at every pixel whose quality value compares `<= t` and keeps the
pre-mask input value exactly at every pixel whose quality value is
strictly greater than `t`. -/
theorem write_masked_data_mask_policy (data_ds mask_ds : Raster) (t : ℚ)
    (i : Nat) (hshape : data_ds.data.length = mask_ds.data.length)
    (hi : i < data_ds.data.length) :
    (F32.le (mask_ds.data.getD i F32.nan) t = true →
      (write_masked_data data_ds mask_ds t).data.getD i F32.nan = F32.nan) ∧
    (F32.gt (mask_ds.data.getD i F32.nan) t = true →
      (write_masked_data data_ds mask_ds t).data.getD i F32.nan =
        data_ds.data.getD i F32.nan) ∧
    write_masked_data data_ds mask_ds = write_masked_data data_ds mask_ds 75 := by
  have hm : i < mask_ds.data.length := hshape ▸ hi
  have hcell := applyMask_getD data_ds.data mask_ds.data t i hi hm
  refine ⟨?_, ?_, rfl⟩
  · intro hle
    show (applyMask data_ds.data mask_ds.data t).getD i F32.nan = F32.nan
    rw [hcell, if_pos hle]
  · intro hgt
    have hle : F32.le (mask_ds.data.getD i F32.nan) t = false := by
      cases h : mask_ds.data.getD i F32.nan with
      | nan => simp [F32.le]
      | num q =>
        rw [h] at hgt
        simp only [F32.gt, decide_eq_true_eq] at hgt
        simp [F32.le, not_le.mpr hgt]
    show (applyMask data_ds.data mask_ds.data t).getD i F32.nan =
      data_ds.data.getD i F32.nan
    rw [hcell, if_neg (by rw [hle]; exact Bool.false_ne_true)]

/-- Witness for C1 at a concrete input: two 2-pixel rasters, quality
values 50 and 80 against threshold 75. -/
theorem write_masked_data_mask_policy_witness :
    ((write_masked_data ⟨2, 1, [], "", [F32.num 3, F32.num 9]⟩
        ⟨2, 1, [], "", [F32.num 50, F32.num 80]⟩ 75).data.getD 0 F32.nan
      = F32.nan) ∧
    ((write_masked_data ⟨2, 1, [], "", [F32.num 3, F32.num 9]⟩
        ⟨2, 1, [], "", [F32.num 50, F32.num 80]⟩ 75).data.getD 1 F32.nan
      = F32.num 9) := by
  refine ⟨?_, ?_⟩
  · exact (write_masked_data_mask_policy ⟨2, 1, [], "", [F32.num 3, F32.num 9]⟩
      ⟨2, 1, [], "", [F32.num 50, F32.num 80]⟩ 75 0 (by decide) (by decide)).1
      (by decide)
  · exact ((write_masked_data_mask_policy ⟨2, 1, [], "", [F32.num 3, F32.num 9]⟩
      ⟨2, 1, [], "", [F32.num 50, F32.num 80]⟩ 75 1 (by decide) (by decide)).2).1
      (by decide)

/-- Claim C3: masking is idempotent — applying `write_masked_data` to an
already-masked raster with the same quality raster and the same
threshold returns the once-masked raster unchanged. -/
theorem write_masked_data_idempotent (data_ds mask_ds : Raster) (t : ℚ) :
    write_masked_data (write_masked_data data_ds mask_ds t) mask_ds t =
      write_masked_data data_ds mask_ds t := by
  simp [write_masked_data, applyMask_idem]

/-- Claim C6: `write_masked_data` copies the geotransform and projection
reference of the input variable raster verbatim onto the output, and the
quality raster's georeferencing plays no role (the output georeferencing
is unchanged under any replacement of the quality raster). -/
theorem write_masked_data_georef_frame (data_ds mask_ds mask_ds' : Raster)
    (t : ℚ) :
    (write_masked_data data_ds mask_ds t).geoTransform = data_ds.geoTransform ∧
    (write_masked_data data_ds mask_ds t).projectionRef = data_ds.projectionRef ∧
    (write_masked_data data_ds mask_ds t).geoTransform =
      (write_masked_data data_ds mask_ds' t).geoTransform ∧
    (write_masked_data data_ds mask_ds t).projectionRef =
      (write_masked_data data_ds mask_ds' t).projectionRef :=
  ⟨rfl, rfl, rfl, rfl⟩

/-- Claim C9: filename derivation is deterministic — two invocations of
`generate_out_filepath` with equal input filepath, equal output folder
and equal extension return equal output paths. -/
theorem generate_out_filepath_deterministic
    (f₁ f₂ o₁ o₂ e₁ e₂ : String)
    (hf : f₁ = f₂) (ho : o₁ = o₂) (he : e₁ = e₂) :
    generate_out_filepath f₁ o₁ e₁ = generate_out_filepath f₂ o₂ e₂ := by
  rw [hf, ho, he]

/-- Witness for C9 at a concrete input. -/
theorem generate_out_filepath_deterministic_witness :
    generate_out_filepath "S5P_x.nc" "/out" ".tif" =
      generate_out_filepath "S5P_x.nc" "/out" ".tif" :=
  generate_out_filepath_deterministic "S5P_x.nc" "S5P_x.nc" "/out" "/out"
    ".tif" ".tif" rfl rfl rfl

/-- Claim C10: `generate_out_filepath` is total — for every input,
including last path components shorter than 35 characters, the slices
truncate (to at most 7 and 15 characters) rather than fail, and the
result is always the concatenated path; on the 4-character filename
"x.nc" both tokens are empty. -/
theorem generate_out_filepath_total :
    (∀ fp folder ext : String, ∃ v ts : String,
      generate_out_filepath fp folder ext =
        folder ++ "/" ++ v ++ "_" ++ ts ++ ext ∧
      v.length ≤ 7 ∧ ts.length ≤ 15) ∧
    generate_out_filepath "x.nc" "/o" ".tif" = "/o/_.tif" := by
  constructor
  · intro fp folder ext
    refine ⟨removeUnderscores (pySlice ((pySplit fp '/').getLastD "") 13 20),
      pySlice ((pySplit fp '/').getLastD "") 20 35, rfl, ?_, ?_⟩
    · exact Nat.le_trans (removeUnderscores_length_le _) (pySlice_length_le _ _ _)
    · exact pySlice_length_le _ _ _
  · decide

end S5P

namespace S5P

/-- `' '.join (s :: l)` is `s` followed by each element of `l` preceded
by one space. -/
theorem pyJoinSpace_cons (s : String) (l : List String) :
    pyJoinSpace (s :: l) = s ++ spaceConcat l := by
  induction l generalizing s with
  | nil => simp [pyJoinSpace, spaceConcat]
  | cons y rest ih =>
    rw [show pyJoinSpace (s :: y :: rest) = s ++ " " ++ pyJoinSpace (y :: rest)
      from rfl, ih y, spaceConcat]
    simp [String.append_assoc]

/-- Claim C2 counterexample: in the default-resolution branch
(`spatial_res` empty) with `EPSG_code = "4326"`, `georef_data` assigns
the `yRes` key and assigns `xRes` only once, contradicting "sets only
the X resolution twice and never sets Y" for that branch. -/
theorem georef_resolution_counterexample :
    hasYRes (resAssigns "4326" []) = true ∧
      countXRes (resAssigns "4326" []) = 1 := by
  decide

/-- Claim C2 (amended): `georef_data` sets only the X resolution twice
and never the Y resolution in the explicit branch and in the default
branch with a non-"4326" EPSG code; in the default branch with EPSG code
"4326" it sets X once and Y once. -/
theorem georef_resolution_amended (EPSG_code : String) (spatial_res : List ℚ) :
    hasYRes (resAssigns EPSG_code spatial_res) =
      (spatial_res.isEmpty && decide (EPSG_code = "4326")) ∧
    countXRes (resAssigns EPSG_code spatial_res) =
      (if spatial_res.isEmpty && decide (EPSG_code = "4326") then 1 else 2) := by
  by_cases he : EPSG_code = "4326" <;>
    cases spatial_res <;>
      simp [resAssigns, georef_data, hasYRes, countXRes, he, List.filter]

/-- Claim C4: `generate_out_filepath` takes the last `/`-separated
component of the input path, extracts the variable token as characters
13-20 with underscores removed and the timestamp token as characters
20-35, and returns `output_folder ++ "/" ++ var ++ "_" ++ timestamp ++
ext`; on a real S5P product name it yields
`/out/NO2_20210101T120000.tif`. -/
theorem generate_out_filepath_tokens :
    (∀ fp folder ext : String,
      generate_out_filepath fp folder ext =
        folder ++ "/" ++
          removeUnderscores (pySlice ((pySplit fp '/').getLastD "") 13 20) ++
          "_" ++ pySlice ((pySplit fp '/').getLastD "") 20 35 ++ ext) ∧
    generate_out_filepath
        "/d/S5P_OFFL_L2__NO2____20210101T120000_20210101T134130_16680_01_010400_20210103T055107.nc"
        "/out" ".tif" =
      "/out/NO2_20210101T120000.tif" :=
  ⟨fun _ _ _ => rfl, by decide⟩

/-- Claim C5: `write_s5p_tif` computes the output path once from the
input filepath and output folder only, so every loop iteration writes
its masked raster to that same path and, for two or more variables, each
write overwrites the previous one: the raster finally readable at the
output path is the last variable's masked raster. -/
theorem write_s5p_tif_single_output_path
    (in_filepath output_folder : String) (vars : List String)
    (readVar : String → Raster) (qa : Raster) (fs : FS)
    (hlen : 2 ≤ vars.length) :
    ((s5pWriteTrace in_filepath vars output_folder readVar qa).all
        (fun w => w.1 == generate_out_filepath in_filepath output_folder ".tif")
      = true) ∧
    fsRead (generate_out_filepath in_filepath output_folder ".tif")
        (write_s5p_tif in_filepath vars output_folder readVar qa fs) =
      some (write_masked_data (readVar (vars.getLastD "")) qa 75) := by
  constructor
  · simp [s5pWriteTrace, List.all_eq_true, List.mem_map]
  · have hne : vars ≠ [] := by
      cases vars with
      | nil => simp at hlen
      | cons a l => simp
    exact fsRead_foldl_fsWrite _
      (fun v => write_masked_data (readVar v) qa 75) vars fs hne

/-- Witness for C5 at a concrete input: two variables "a", "b" over
1-pixel rasters; only "b"'s masked raster survives at the single output
path. -/
theorem write_s5p_tif_single_output_path_witness :
    ((s5pWriteTrace "/d/in.nc" ["a", "b"] "/out"
        (fun v => if v = "a" then ⟨1, 1, [0], "P", [F32.num 1]⟩
                  else ⟨1, 1, [0], "P", [F32.num 2]⟩)
        ⟨1, 1, [0], "P", [F32.num 80]⟩).all
        (fun w => w.1 == generate_out_filepath "/d/in.nc" "/out" ".tif")
      = true) ∧
    fsRead (generate_out_filepath "/d/in.nc" "/out" ".tif")
        (write_s5p_tif "/d/in.nc" ["a", "b"] "/out"
          (fun v => if v = "a" then ⟨1, 1, [0], "P", [F32.num 1]⟩
                    else ⟨1, 1, [0], "P", [F32.num 2]⟩)
          ⟨1, 1, [0], "P", [F32.num 80]⟩ []) =
      some (write_masked_data
        ((fun v => if v = "a" then ⟨1, 1, [0], "P", [F32.num 1]⟩
                   else ⟨1, 1, [0], "P", [F32.num 2]⟩)
          (["a", "b"].getLastD ""))
        ⟨1, 1, [0], "P", [F32.num 80]⟩ 75) :=
  write_s5p_tif_single_output_path "/d/in.nc" "/out" ["a", "b"]
    (fun v => if v = "a" then ⟨1, 1, [0], "P", [F32.num 1]⟩
              else ⟨1, 1, [0], "P", [F32.num 2]⟩)
    ⟨1, 1, [0], "P", [F32.num 80]⟩ [] (by decide)

/-- Claim C7: `merge_rasters` assembles the command line
`gdal_merge.py -init 255 -o <output> -n 9999` followed by every input
path enclosed in double quotes, and runs it through the shell as a
subprocess. -/
theorem merge_rasters_cmd (in_filenames : List String)
    (output_filename : String) :
    (merge_rasters in_filenames output_filename).cmd =
      "gdal_merge.py -init 255 -o " ++ output_filename ++ " -n 9999" ++
        spaceConcat (in_filenames.map (fun f => "\"" ++ f ++ "\"")) ∧
    (merge_rasters in_filenames output_filename).shell = true := by
  refine ⟨?_, rfl⟩
  have h : (merge_rasters in_filenames output_filename).cmd =
      pyJoinSpace ("gdal_merge.py" :: "-init 255 -o" :: output_filename ::
        "-n 9999" :: in_filenames.map (fun f => "\"" ++ f ++ "\"")) := rfl
  rw [h,
    show pyJoinSpace ("gdal_merge.py" :: "-init 255 -o" :: output_filename ::
        "-n 9999" :: in_filenames.map (fun f => "\"" ++ f ++ "\"")) =
      "gdal_merge.py" ++ " " ++ ("-init 255 -o" ++ " " ++
        (output_filename ++ " " ++ pyJoinSpace ("-n 9999" ::
          in_filenames.map (fun f => "\"" ++ f ++ "\"")))) from rfl,
    pyJoinSpace_cons]
  simp only [String.append_assoc]
  rfl

/-- Claim C8: the VRT descriptor written by `write_var_to_tif` declares
exactly one raster band, of type Float32, sourced from the named
variable of the input product, and binds the geolocation arrays with
pixel/line offset 0 and pixel/line step 1. -/
theorem write_var_to_tif_vrt_spec (in_fp varName lon lat : String)
    (xs ys : Nat) :
    (write_var_to_tif_vrt in_fp varName lon lat xs ys).bands.length = 1 ∧
    ((write_var_to_tif_vrt in_fp varName lon lat xs ys).bands.headD
        ⟨0, "", "", 0, (0, 0, 0, 0), (0, 0, 0, 0)⟩).datatype = "Float32" ∧
    ((write_var_to_tif_vrt in_fp varName lon lat xs ys).bands.headD
        ⟨0, "", "", 0, (0, 0, 0, 0), (0, 0, 0, 0)⟩).sourceFilename =
      "HDF5:" ++ in_fp ++ "://PRODUCT/" ++ varName ∧
    (write_var_to_tif_vrt in_fp varName lon lat xs ys).geolocation.pixelOffset
      = 0 ∧
    (write_var_to_tif_vrt in_fp varName lon lat xs ys).geolocation.lineOffset
      = 0 ∧
    (write_var_to_tif_vrt in_fp varName lon lat xs ys).geolocation.pixelStep
      = 1 ∧
    (write_var_to_tif_vrt in_fp varName lon lat xs ys).geolocation.lineStep
      = 1 :=
  ⟨rfl, rfl, rfl, rfl, rfl, rfl, rfl⟩

end S5P
